import Mathlib

/-!
Shallow embedding of the flow-field demo (src/src/main.rs): a Bevy app that
allocates a storage image, a particle storage buffer and a per-pixel energy
storage buffer at startup, builds a bind group each frame, and runs a render
graph node dispatching three compute programs (update, clear, draw).

CPU-side f32 values (particle positions and velocities produced from
rand::random::<f32>()) are idealised as rationals; the random generator is an
oracle stream consumed left to right, four draws per particle in the order
position.x, position.y, velocity.x, velocity.y, exactly as the source loop
calls rand::random. GPU handles (images, buffers, pipelines) are opaque
naturals. A Rust .unwrap() on a fallible host lookup is modelled by Option:
a none result is the panic (process abort).
-/

namespace FlowFields

/-- Constant SIZE from main.rs line 23: the screen size in pixels, (width, height). -/
def SIZE : Nat × Nat := (1280, 720)

/-- Constant WORKGROUP_SIZE from main.rs line 24. -/
def WORKGROUP_SIZE : Nat := 256

/-- Constant NR_PARTICLES from main.rs line 25. -/
def NR_PARTICLES : Nat := WORKGROUP_SIZE * 128

/-- Two-dimensional vector of (idealised) f32 components, as in bevy's Vec2. -/
structure Vec2 where
  x : ℚ
  y : ℚ
deriving DecidableEq

/-- Vec2.ZERO constant. -/
def Vec2.ZERO : Vec2 := { x := 0, y := 0 }

/-- The Particle record of main.rs lines 56-61: position, velocity and a
per-particle seed (a u32, so stored modulo 2 ^ 32). -/
structure Particle where
  position : Vec2
  velocity : Vec2
  seed : Nat
deriving DecidableEq

/-- The ComputeInput resource (main.rs lines 27-30): the handle of the
destination image. Handles are opaque naturals. -/
structure ComputeInput where
  dst_image : Nat
deriving DecidableEq

/-- The ParticleBuffer resource (main.rs lines 50-54): the handles of the two
storage buffers. -/
structure ParticleBuffer where
  particles : Nat
  energies : Nat
deriving DecidableEq

/-- The ComputeNode render-graph node state (main.rs lines 45-48). -/
structure ComputeNode where
  ready : Bool
deriving DecidableEq

/-- The #[derive(Default)] instance of ComputeNode: bool defaults to false. -/
def ComputeNode.default : ComputeNode := { ready := false }

/-- Texture formats this program mentions. -/
inductive TextureFormatT
  | Rgba32Float
deriving DecidableEq

/-- The two texture usage flags set in setup (main.rs lines 87-88). -/
structure TextureUsagesT where
  STORAGE_BINDING : Bool
  TEXTURE_BINDING : Bool
deriving DecidableEq

/-- Descriptor of the image allocated in setup: extent, format and usage. -/
structure ImageDesc where
  width : Nat
  height : Nat
  format : TextureFormatT
  usage : TextureUsagesT
deriving DecidableEq

/-- Buffer usage flags used by this program (only STORAGE appears). -/
inductive BufferUsageFlag
  | STORAGE
deriving DecidableEq

/-- Descriptor of the particle storage buffer created with
create_buffer_with_data (main.rs lines 123-127): its usage and the particle
records written into it through encase. -/
structure ParticleBufferDesc where
  usage : BufferUsageFlag
  contents : List Particle
deriving DecidableEq

/-- Descriptor of the energy storage buffer created with create_buffer
(main.rs lines 129-134): byte size, usage, mapped_at_creation. -/
structure EnergyBufferDesc where
  size : Nat
  usage : BufferUsageFlag
  mapped_at_creation : Bool
deriving DecidableEq

/-- A buffer allocation performed by setup, in program order. -/
inductive BufferAllocation
  | particleStorage (d : ParticleBufferDesc)
  | energyStorage (d : EnergyBufferDesc)
deriving DecidableEq

/-- Entities spawned by setup: the full-screen sprite (with its custom_size
and the handle of its texture) and the 2D camera. -/
inductive Entity
  | spriteBundle (custom_size : ℚ × ℚ) (texture : Nat)
  | camera2d
deriving DecidableEq

/-- Handle of the image added to Assets of Image in setup. -/
def dstImageHandle : Nat := 0

/-- Particle in the initial vec! fill of main.rs lines 101-105. -/
def initParticleZero : Particle :=
  { position := Vec2.ZERO, velocity := Vec2.ZERO, seed := 0 }

/-- Body of the initialization loop of main.rs lines 107-118 for index i:
overwrite position with random * SIZE, velocity with random draws, and the
seed with i as u32. The oracle rng is consumed four draws per particle. -/
def loopBody (rng : Nat → ℚ) (i : Nat) (p : Particle) : Particle :=
  { p with
    position := { x := rng (4 * i) * (SIZE.1 : ℚ), y := rng (4 * i + 1) * (SIZE.2 : ℚ) }
    velocity := { x := rng (4 * i + 2), y := rng (4 * i + 3) }
    seed := i % 2 ^ 32 }

/-- The particle vector after setup's initialization loop: NR_PARTICLES zero
particles, then each entry rewritten by the enumerated loop body. -/
def setupParticles (rng : Nat → ℚ) : List Particle :=
  ((List.replicate NR_PARTICLES initParticleZero).enum).map
    (fun ip => loopBody rng ip.1 ip.2)

/-- Everything the startup system setup (main.rs lines 71-143) creates: the
image, the spawned entities in order, the two buffer descriptors, the buffer
allocations in program order, and the two inserted resources. -/
structure SetupResult where
  image : ImageDesc
  spawned : List Entity
  particle_storage : ParticleBufferDesc
  energy_storage : EnergyBufferDesc
  bufferAllocations : List BufferAllocation
  particleBufferRes : ParticleBuffer
  computeInputRes : ComputeInput

/-- Handle of the particle storage buffer. -/
def particleStorageHandle : Nat := 0

/-- Handle of the energy storage buffer. -/
def energyStorageHandle : Nat := 1

/-- The startup system setup, translated line by line from main.rs 71-143:
allocate the 1280x720 Rgba32Float image with STORAGE_BINDING and
TEXTURE_BINDING usage, spawn the full-screen sprite textured with it, build
and upload the particle vector, create the energy buffer of 4 * width *
height bytes, spawn the 2D camera, and insert the ParticleBuffer and
ComputeInput resources. -/
def setup (rng : Nat → ℚ) : SetupResult :=
  let image : ImageDesc :=
    { width := SIZE.1, height := SIZE.2, format := TextureFormatT.Rgba32Float,
      usage := { STORAGE_BINDING := true, TEXTURE_BINDING := true } }
  let particleList := setupParticles rng
  let particle_storage : ParticleBufferDesc :=
    { usage := BufferUsageFlag.STORAGE, contents := particleList }
  let energy_storage : EnergyBufferDesc :=
    { size := 4 * SIZE.1 * SIZE.2, usage := BufferUsageFlag.STORAGE,
      mapped_at_creation := false }
  { image := image
    spawned := [Entity.spriteBundle ((SIZE.1 : ℚ), (SIZE.2 : ℚ)) dstImageHandle,
                Entity.camera2d]
    particle_storage := particle_storage
    energy_storage := energy_storage
    bufferAllocations := [BufferAllocation.particleStorage particle_storage,
                          BufferAllocation.energyStorage energy_storage]
    particleBufferRes := { particles := particleStorageHandle,
                           energies := energyStorageHandle }
    computeInputRes := { dst_image := dstImageHandle } }

/-- A resource bound in a bind group entry: a texture view or a buffer
binding (buffer handle with byte offset; size None is elided). -/
inductive BindingResourceT
  | textureView (v : Nat)
  | buffer (b : Nat) (offset : Nat)
deriving DecidableEq

/-- One entry of a bind group: the binding slot and the bound resource. -/
structure BindGroupEntryT where
  binding : Nat
  resource : BindingResourceT
deriving DecidableEq

/-- The prepare_bind_group system of main.rs lines 145-181. The gpu_images
argument is the RenderAssets lookup, returning the texture view for a ready
image handle; .unwrap() on a missing image is the none result. On success
the bind group holds the texture view at binding 0, the particle buffer at
binding 1 and the energy buffer at binding 2, both at offset 0. -/
def prepare_bind_group (gpu_images : Nat → Option Nat) (inputs : ComputeInput)
    (particles : ParticleBuffer) : Option (List BindGroupEntryT) :=
  match gpu_images inputs.dst_image with
  | none => none
  | some view =>
    some [{ binding := 0, resource := BindingResourceT.textureView view },
          { binding := 1, resource := BindingResourceT.buffer particles.particles 0 },
          { binding := 2, resource := BindingResourceT.buffer particles.energies 0 }]

/-- The render-world state the per-frame systems read: the gpu image lookup,
the extracted ComputeInput and ParticleBuffer resources, the contents of the
particle buffer (GPU-side data), and the ComputeBindGroup resource written by
prepare_bind_group. -/
structure RenderWorld where
  gpu_images : Nat → Option Nat
  inputs : ComputeInput
  particles : ParticleBuffer
  particleData : List Particle
  bind_group : Option (List BindGroupEntryT)

/-- Running the prepare_bind_group system on the render world: on success it
only replaces the ComputeBindGroup resource (commands.insert_resource at
main.rs line 180); a failed image lookup panics (none). -/
def prepare_bind_group_system (w : RenderWorld) : Option RenderWorld :=
  match prepare_bind_group w.gpu_images w.inputs w.particles with
  | none => none
  | some bg => some { w with bind_group := some bg }

/-- The bind group in effect on a given frame. The source prepare_bind_group
takes no frame counter among its system parameters (main.rs lines 145-152),
so its result cannot depend on the frame index. -/
def bindGroupOnFrame (w : RenderWorld) (_frame : Nat) : Option (List BindGroupEntryT) :=
  prepare_bind_group w.gpu_images w.inputs w.particles

/-- The state of a cached pipeline in the host's PipelineCache. -/
inductive CachedPipelineState
  | Queued
  | Creating
  | Ok
  | Err
deriving DecidableEq

/-- The PipelineCache resource, as this program observes it: a state per
cached compute pipeline id. -/
structure PipelineCache where
  state : Nat → CachedPipelineState

/-- PipelineCache.get_compute_pipeline: the compute pipeline is available
exactly when its cached state is Ok. -/
def PipelineCache.get_compute_pipeline (c : PipelineCache) (id : Nat) : Option Nat :=
  match c.state id with
  | CachedPipelineState.Ok => some id
  | _ => none

/-- The ComputePipeline resource (main.rs lines 34-40): the three cached
compute pipeline ids queued in FromWorld (update, draw, clear). The bind
group layout is not needed by the claims. -/
structure ComputePipeline where
  update_program : Nat
  draw_program : Nat
  clear_program : Nat
deriving DecidableEq

/-- ComputeNode::update (main.rs lines 278-293): when not yet ready, set
ready to true if the update pipeline state is Ok and then the draw pipeline
state is Ok; the clear pipeline state is never consulted. -/
def ComputeNode.update (node : ComputeNode) (cache : PipelineCache)
    (p : ComputePipeline) : ComputeNode :=
  if !node.ready then
    match cache.state p.update_program with
    | CachedPipelineState.Ok =>
      match cache.state p.draw_program with
      | CachedPipelineState.Ok => { ready := true }
      | _ => node
    | _ => node
  else node

/-- One command recorded into the compute pass of ComputeNode::run. -/
inductive PassCmd
  | setBindGroup (index : Nat) (bg : List BindGroupEntryT)
  | setPipeline (p : Nat)
  | dispatch (x : Nat) (y : Nat) (z : Nat)
deriving DecidableEq

/-- ComputeNode::run (main.rs lines 295-331): if not ready return Ok with no
pass recorded; otherwise unwrap the three cached pipelines (update, clear,
draw, in source order; a failed lookup panics, modelled by none), then record
one compute pass: bind group at index 0, then for each of update, clear and
draw set the pipeline and dispatch its workgroups. run takes the world
immutably (&World in the source), so it returns only the recorded commands. -/
def ComputeNode.run (node : ComputeNode) (bind_group : List BindGroupEntryT)
    (cache : PipelineCache) (p : ComputePipeline) : Option (List PassCmd) :=
  if !node.ready then some [] else
  match cache.get_compute_pipeline p.update_program with
  | none => none
  | some update_program =>
    match cache.get_compute_pipeline p.clear_program with
    | none => none
    | some clear_program =>
      match cache.get_compute_pipeline p.draw_program with
      | none => none
      | some draw_program =>
        some [PassCmd.setBindGroup 0 bind_group,
              PassCmd.setPipeline update_program,
              PassCmd.dispatch (NR_PARTICLES / WORKGROUP_SIZE) 1 1,
              PassCmd.setPipeline clear_program,
              PassCmd.dispatch (SIZE.1 / 16) (SIZE.2 / 16) 1,
              PassCmd.setPipeline draw_program,
              PassCmd.dispatch (SIZE.1 / 16) (SIZE.2 / 16) 1]

/-! Concrete fixtures used to instantiate the theorems. -/

/-- A render world in which the destination image is ready (its gpu lookup
returns texture view 7) and the particle and energy buffer handles are those
inserted by setup. -/
def w0 : RenderWorld :=
  { gpu_images := fun _ => some 7
    inputs := { dst_image := dstImageHandle }
    particles := { particles := particleStorageHandle, energies := energyStorageHandle }
    particleData := []
    bind_group := none }

/-- The ComputePipeline resource with distinct cached pipeline ids, in the
order the FromWorld impl queues them: update 0, draw 1, clear 2. -/
def p0 : ComputePipeline :=
  { update_program := 0, draw_program := 1, clear_program := 2 }

/-- A pipeline cache in which every pipeline has compiled. -/
def allOkCache : PipelineCache := { state := fun _ => CachedPipelineState.Ok }

/-- A pipeline cache in which the update and draw pipelines have compiled but
the clear pipeline is still queued. -/
def badCache : PipelineCache :=
  { state := fun id => if id = p0.clear_program then CachedPipelineState.Queued
                       else CachedPipelineState.Ok }

/-- A fixed random oracle always returning one half. -/
def halfRng : Nat → ℚ := fun _ => 1 / 2

/-! Claim theorems. -/

/-- Claim C1, counterexample. The claim says prepare_bind_group chooses the
bound buffers by frame-counter parity, differing between consecutive frames.
In this program the bind group of frame 0 equals the bind group of frame 1
(and it is a real bind group, not a panic): prepare_bind_group receives no
frame counter and binds the same resources on every frame. -/
theorem bind_group_equal_on_consecutive_frames :
    bindGroupOnFrame w0 0 = bindGroupOnFrame w0 1 ∧
    (bindGroupOnFrame w0 0).isSome = true := by
  constructor
  · rfl
  · rfl

/-- Claim C1, amended: prepare_bind_group receives no frame counter, so the
bind group it produces is identical on all frames; whenever the gpu image
lookup succeeds it binds the destination image's texture view at binding 0,
the particle buffer at binding 1 and the energy buffer at binding 2 — a fixed
choice, with no parity-based source/destination alternation. -/
theorem prepare_bind_group_frame_independent (w : RenderWorld) (n m : Nat) (view : Nat)
    (h : w.gpu_images w.inputs.dst_image = some view) :
    bindGroupOnFrame w n = bindGroupOnFrame w m ∧
    bindGroupOnFrame w n =
      some [{ binding := 0, resource := BindingResourceT.textureView view },
            { binding := 1, resource := BindingResourceT.buffer w.particles.particles 0 },
            { binding := 2, resource := BindingResourceT.buffer w.particles.energies 0 }] := by
  refine ⟨rfl, ?_⟩
  unfold bindGroupOnFrame prepare_bind_group
  rw [h]

/-- Claim C1, witness for the amended theorem at the concrete world w0 and
frames 0 and 1. -/
theorem prepare_bind_group_frame_independent_witness :
    w0.gpu_images w0.inputs.dst_image = some 7 ∧
    (bindGroupOnFrame w0 0 = bindGroupOnFrame w0 1 ∧
     bindGroupOnFrame w0 0 =
       some [{ binding := 0, resource := BindingResourceT.textureView 7 },
             { binding := 1, resource := BindingResourceT.buffer w0.particles.particles 0 },
             { binding := 2, resource := BindingResourceT.buffer w0.particles.energies 0 }]) :=
  ⟨rfl, prepare_bind_group_frame_independent w0 0 1 7 rfl⟩

/-- Claim C2: when the node is ready and the three cached pipelines are
available, ComputeNode::run records exactly one setBindGroup at index 0
followed by three pipeline dispatches in the order update, clear, draw; the
bind group is set once, so all three dispatches run with the same bind group
bound at index 0. -/
theorem run_dispatches_update_clear_draw (node : ComputeNode)
    (bg : List BindGroupEntryT) (cache : PipelineCache) (p : ComputePipeline)
    (hready : node.ready = true)
    (hu : cache.state p.update_program = CachedPipelineState.Ok)
    (hc : cache.state p.clear_program = CachedPipelineState.Ok)
    (hd : cache.state p.draw_program = CachedPipelineState.Ok) :
    ComputeNode.run node bg cache p =
      some [PassCmd.setBindGroup 0 bg,
            PassCmd.setPipeline p.update_program,
            PassCmd.dispatch 128 1 1,
            PassCmd.setPipeline p.clear_program,
            PassCmd.dispatch 80 45 1,
            PassCmd.setPipeline p.draw_program,
            PassCmd.dispatch 80 45 1] := by
  unfold ComputeNode.run PipelineCache.get_compute_pipeline
  rw [hready, hu, hc, hd]
  rfl

/-- Claim C2, witness: a ready node with the all-Ok cache at the concrete
pipeline ids. -/
theorem run_dispatches_update_clear_draw_witness :
    ComputeNode.run { ready := true } [] allOkCache p0 =
      some [PassCmd.setBindGroup 0 [],
            PassCmd.setPipeline p0.update_program,
            PassCmd.dispatch 128 1 1,
            PassCmd.setPipeline p0.clear_program,
            PassCmd.dispatch 80 45 1,
            PassCmd.setPipeline p0.draw_program,
            PassCmd.dispatch 80 45 1] :=
  run_dispatches_update_clear_draw { ready := true } [] allOkCache p0 rfl rfl rfl rfl

/-- Claim C3: with the update and draw pipelines compiled but the clear
pipeline still queued, ComputeNode::update flips ready to true (it never
consults the clear pipeline's state), and in that reachable state
ComputeNode::run's unwrap of the clear-pipeline lookup fails (none models
the panic): readiness does not make that unwrap's error branch unreachable. -/
theorem ready_without_clear_pipeline :
    (ComputeNode.update ComputeNode.default badCache p0).ready = true ∧
    badCache.state p0.clear_program ≠ CachedPipelineState.Ok ∧
    badCache.get_compute_pipeline p0.clear_program = none ∧
    ComputeNode.run (ComputeNode.update ComputeNode.default badCache p0) [] badCache p0
      = none := by
  refine ⟨rfl, ?_, rfl, rfl⟩
  intro h
  simp [badCache] at h

/-- Claim C4: the unwrapped host lookups are the only failure points and are
fatal, with no alternative return path. prepare_bind_group panics (none)
exactly when the gpu-image lookup fails, and a ready node's run panics
exactly when one of the three cached-pipeline lookups fails; in all other
cases each function returns its single success value. -/
theorem unwrap_failures_are_fatal :
    (∀ gi : Nat → Option Nat, ∀ inp : ComputeInput, ∀ pb : ParticleBuffer,
      (prepare_bind_group gi inp pb = none ↔ gi inp.dst_image = none)) ∧
    (∀ bg : List BindGroupEntryT, ∀ cache : PipelineCache, ∀ p : ComputePipeline,
      (ComputeNode.run { ready := true } bg cache p = none ↔
        (cache.get_compute_pipeline p.update_program = none ∨
         cache.get_compute_pipeline p.clear_program = none ∨
         cache.get_compute_pipeline p.draw_program = none))) := by
  constructor
  · intro gi inp pb
    unfold prepare_bind_group
    cases h : gi inp.dst_image <;> simp
  · intro bg cache p
    unfold ComputeNode.run
    cases hu : cache.get_compute_pipeline p.update_program <;>
      cases hc : cache.get_compute_pipeline p.clear_program <;>
        cases hd : cache.get_compute_pipeline p.draw_program <;> simp

/-- Claim C7: the dispatch sizing is exact. NR_PARTICLES is divisible by
WORKGROUP_SIZE with quotient 128, so 128 workgroups of 256 cover the 32768
particles exactly; both screen dimensions are divisible by 16 with quotients
80 and 45, covering every pixel exactly; and ComputeNode::run dispatches
precisely these workgroup counts for the update, clear and draw passes. -/
theorem workgroup_dispatch_exact :
    NR_PARTICLES % WORKGROUP_SIZE = 0 ∧
    NR_PARTICLES / WORKGROUP_SIZE = 128 ∧
    (NR_PARTICLES / WORKGROUP_SIZE) * WORKGROUP_SIZE = NR_PARTICLES ∧
    SIZE.1 % 16 = 0 ∧ SIZE.2 % 16 = 0 ∧
    SIZE.1 / 16 = 80 ∧ SIZE.2 / 16 = 45 ∧
    (SIZE.1 / 16) * 16 = SIZE.1 ∧ (SIZE.2 / 16) * 16 = SIZE.2 ∧
    ComputeNode.run { ready := true } [] allOkCache p0 =
      some [PassCmd.setBindGroup 0 [],
            PassCmd.setPipeline 0,
            PassCmd.dispatch 128 1 1,
            PassCmd.setPipeline 2,
            PassCmd.dispatch 80 45 1,
            PassCmd.setPipeline 1,
            PassCmd.dispatch 80 45 1] := by
  refine ⟨by decide, by decide, by decide, by decide, by decide, by decide, by decide,
          by decide, by decide, rfl⟩

/-- The bind group prepare_bind_group builds on the concrete world w0. -/
def bg0 : List BindGroupEntryT :=
  [{ binding := 0, resource := BindingResourceT.textureView 7 },
   { binding := 1, resource := BindingResourceT.buffer w0.particles.particles 0 },
   { binding := 2, resource := BindingResourceT.buffer w0.particles.energies 0 }]

/-- The render world after prepare_bind_group_system ran on w0: only the
ComputeBindGroup resource changed. -/
def w0prepared : RenderWorld :=
  { w0 with bind_group := some bg0 }

/-- Claim C5: setup performs exactly two buffer allocations (the particle
storage buffer, then the energy storage buffer), each once; and the per-frame
CPU-side systems do not mutate per-particle state: prepare_bind_group only
replaces the ComputeBindGroup resource, leaving the particle data, the buffer
handles, the inputs and the image lookup untouched (ComputeNode::run takes
the world immutably and is modelled as returning only GPU pass commands). -/
theorem buffers_allocated_once_no_cpu_mutation (rng : Nat → ℚ) :
    (setup rng).bufferAllocations =
      [BufferAllocation.particleStorage (setup rng).particle_storage,
       BufferAllocation.energyStorage (setup rng).energy_storage] ∧
    (setup rng).bufferAllocations.length = 2 ∧
    (∀ w w2 : RenderWorld, prepare_bind_group_system w = some w2 →
       w2.particleData = w.particleData ∧ w2.particles = w.particles ∧
       w2.inputs = w.inputs ∧ w2.gpu_images = w.gpu_images) := by
  refine ⟨rfl, rfl, ?_⟩
  intro w w2 h
  unfold prepare_bind_group_system at h
  cases hbg : prepare_bind_group w.gpu_images w.inputs w.particles with
  | none => rw [hbg] at h; exact absurd h (by simp)
  | some bg =>
    rw [hbg] at h
    have h2 : { w with bind_group := some bg } = w2 := by
      injection h
    rw [← h2]
    exact ⟨rfl, rfl, rfl, rfl⟩

/-- Claim C5, witness: running prepare_bind_group_system on the concrete
world w0 yields w0prepared, which differs from w0 only in the bind group. -/
theorem buffers_allocated_once_no_cpu_mutation_witness :
    prepare_bind_group_system w0 = some w0prepared ∧
    (w0prepared.particleData = w0.particleData ∧ w0prepared.particles = w0.particles ∧
     w0prepared.inputs = w0.inputs ∧ w0prepared.gpu_images = w0.gpu_images) :=
  ⟨rfl, (buffers_allocated_once_no_cpu_mutation halfRng).2.2 w0 w0prepared rfl⟩

/-- Claim C6: the persistent GPU buffer state is exactly the two storage
buffers setup allocates: the particle buffer holding NR_PARTICLES = 256 * 128
Particle records (each a position, a velocity and a seed, by the Particle
type), and the energy buffer of exactly 4 bytes per pixel of the 1280x720
image, i.e. 4 * 1280 * 720 bytes. -/
theorem gpu_state_is_two_storage_buffers (rng : Nat → ℚ) :
    (setup rng).particle_storage.contents.length = NR_PARTICLES ∧
    NR_PARTICLES = 256 * 128 ∧
    (setup rng).particle_storage.usage = BufferUsageFlag.STORAGE ∧
    (setup rng).energy_storage =
      { size := 4 * 1280 * 720, usage := BufferUsageFlag.STORAGE,
        mapped_at_creation := false } ∧
    (setup rng).bufferAllocations.length = 2 := by
  refine ⟨?_, by decide, rfl, rfl, rfl⟩
  show (setupParticles rng).length = NR_PARTICLES
  simp [setupParticles]

/-- Claim C8: setup allocates a single 1280x720 Rgba32Float image whose
usage flags are STORAGE_BINDING and TEXTURE_BINDING, and spawns exactly two
entities: a sprite of custom size 1280x720 textured with that image's handle,
and a 2D camera. -/
theorem setup_image_and_two_entities (rng : Nat → ℚ) :
    (setup rng).image =
      { width := 1280, height := 720, format := TextureFormatT.Rgba32Float,
        usage := { STORAGE_BINDING := true, TEXTURE_BINDING := true } } ∧
    (setup rng).spawned =
      [Entity.spriteBundle ((1280 : ℚ), (720 : ℚ)) dstImageHandle, Entity.camera2d] ∧
    (setup rng).spawned.length = 2 ∧
    (setup rng).computeInputRes.dst_image = dstImageHandle := by
  refine ⟨rfl, ?_, rfl, rfl⟩
  show [Entity.spriteBundle ((SIZE.1 : ℚ), (SIZE.2 : ℚ)) dstImageHandle, Entity.camera2d]
     = [Entity.spriteBundle ((1280 : ℚ), (720 : ℚ)) dstImageHandle, Entity.camera2d]
  norm_num [SIZE]

/-- Claim C9: the ready flag is monotone. It starts false (the Default
derive), ComputeNode::update never turns it back from true to false, it only
becomes true when both the update and draw pipeline states are Ok, and while
it is false ComputeNode::run returns Ok having recorded no pass command. -/
theorem ready_flag_monotone :
    ComputeNode.default.ready = false ∧
    (∀ (node : ComputeNode) (cache : PipelineCache) (p : ComputePipeline),
       node.ready = true → (ComputeNode.update node cache p).ready = true) ∧
    (∀ (node : ComputeNode) (cache : PipelineCache) (p : ComputePipeline),
       (ComputeNode.update node cache p).ready = true →
       node.ready = true ∨
         (cache.state p.update_program = CachedPipelineState.Ok ∧
          cache.state p.draw_program = CachedPipelineState.Ok)) ∧
    (∀ (node : ComputeNode) (bg : List BindGroupEntryT) (cache : PipelineCache)
       (p : ComputePipeline),
       node.ready = false → ComputeNode.run node bg cache p = some []) := by
  refine ⟨rfl, ?_, ?_, ?_⟩
  · intro node cache p h
    simp [ComputeNode.update, h]
  · intro node cache p h
    rcases node with ⟨rdy⟩
    cases rdy with
    | true => exact Or.inl rfl
    | false =>
      right
      cases hu : cache.state p.update_program <;>
        cases hd : cache.state p.draw_program <;>
          simp [ComputeNode.update, hu, hd] at h
      exact ⟨rfl, rfl⟩
  · intro node bg cache p h
    simp [ComputeNode.run, h]

/-- Claim C9, witness: the default node is not ready and its run records no
pass even with every pipeline compiled. -/
theorem ready_flag_monotone_witness :
    ComputeNode.default.ready = false ∧
    ComputeNode.run ComputeNode.default [] allOkCache p0 = some [] :=
  ⟨ready_flag_monotone.1,
   ready_flag_monotone.2.2.2 ComputeNode.default [] allOkCache p0 rfl⟩

/-- Element i of the particle vector built by setup's initialization loop. -/
theorem setupParticles_get (rng : Nat → ℚ) (i : Nat) (h : i < NR_PARTICLES) :
    (setupParticles rng)[i]? = some (loopBody rng i initParticleZero) := by
  have h1 : i < ((List.replicate NR_PARTICLES initParticleZero).enum).length := by
    simpa using h
  unfold setupParticles
  rw [List.getElem?_map, List.getElem?_eq_getElem h1]
  simp [List.getElem_enum]

/-- Claim C10: after setup's initialization loop, the i-th particle has seed
exactly i (a u32 that does not wrap since NR_PARTICLES is below 2 ^ 32), a
position in [0, 1280) x [0, 720), velocity components in [0, 1), and its seed
differs from every other particle's seed. The random oracle satisfies the
contract of rand::random for f32: every draw lies in [0, 1). -/
theorem particles_seeded_and_bounded (rng : Nat → ℚ)
    (hr : ∀ n, 0 ≤ rng n ∧ rng n < 1) (i : Nat) (hi : i < NR_PARTICLES) :
    ∃ p : Particle, (setup rng).particle_storage.contents[i]? = some p ∧
      p.seed = i ∧
      0 ≤ p.position.x ∧ p.position.x < 1280 ∧
      0 ≤ p.position.y ∧ p.position.y < 720 ∧
      0 ≤ p.velocity.x ∧ p.velocity.x < 1 ∧
      0 ≤ p.velocity.y ∧ p.velocity.y < 1 ∧
      (∀ j, j < NR_PARTICLES → j ≠ i → ∀ q : Particle,
        (setup rng).particle_storage.contents[j]? = some q → q.seed ≠ p.seed) := by
  have hc : (setup rng).particle_storage.contents = setupParticles rng := rfl
  have hN : NR_PARTICLES ≤ 2 ^ 32 := by norm_num [NR_PARTICLES, WORKGROUP_SIZE]
  have hW : (SIZE.1 : ℚ) = 1280 := by norm_num [SIZE]
  have hH : (SIZE.2 : ℚ) = 720 := by norm_num [SIZE]
  refine ⟨loopBody rng i initParticleZero, ?_, ?_, ?_, ?_, ?_, ?_, ?_, ?_, ?_, ?_, ?_⟩
  · rw [hc]; exact setupParticles_get rng i hi
  · show i % 2 ^ 32 = i
    exact Nat.mod_eq_of_lt (lt_of_lt_of_le hi hN)
  · show 0 ≤ rng (4 * i) * (SIZE.1 : ℚ)
    exact mul_nonneg (hr (4 * i)).1 (by rw [hW]; norm_num)
  · show rng (4 * i) * (SIZE.1 : ℚ) < 1280
    rw [hW]
    exact mul_lt_of_lt_one_left (by norm_num) (hr (4 * i)).2
  · show 0 ≤ rng (4 * i + 1) * (SIZE.2 : ℚ)
    exact mul_nonneg (hr (4 * i + 1)).1 (by rw [hH]; norm_num)
  · show rng (4 * i + 1) * (SIZE.2 : ℚ) < 720
    rw [hH]
    exact mul_lt_of_lt_one_left (by norm_num) (hr (4 * i + 1)).2
  · exact (hr (4 * i + 2)).1
  · exact (hr (4 * i + 2)).2
  · exact (hr (4 * i + 3)).1
  · exact (hr (4 * i + 3)).2
  · intro j hj hne q hq
    rw [hc, setupParticles_get rng j hj] at hq
    have hq2 : q = loopBody rng j initParticleZero := by
      injection hq with h2
      exact h2.symm
    subst hq2
    show j % 2 ^ 32 ≠ i % 2 ^ 32
    rw [Nat.mod_eq_of_lt (lt_of_lt_of_le hj hN), Nat.mod_eq_of_lt (lt_of_lt_of_le hi hN)]
    exact hne

/-- Claim C10, witness: the oracle returning one half meets the [0, 1)
contract and particle 0 satisfies the stated properties. -/
theorem particles_seeded_and_bounded_witness :
    (∀ n, 0 ≤ halfRng n ∧ halfRng n < 1) ∧ 0 < NR_PARTICLES ∧
    (∃ p : Particle, (setup halfRng).particle_storage.contents[0]? = some p ∧
      p.seed = 0 ∧
      0 ≤ p.position.x ∧ p.position.x < 1280 ∧
      0 ≤ p.position.y ∧ p.position.y < 720 ∧
      0 ≤ p.velocity.x ∧ p.velocity.x < 1 ∧
      0 ≤ p.velocity.y ∧ p.velocity.y < 1 ∧
      (∀ j, j < NR_PARTICLES → j ≠ 0 → ∀ q : Particle,
        (setup halfRng).particle_storage.contents[j]? = some q → q.seed ≠ p.seed)) :=
  ⟨fun n => by norm_num [halfRng], by decide,
   particles_seeded_and_bounded halfRng (fun n => by norm_num [halfRng]) 0 (by decide)⟩

end FlowFields
